import Mathlib

/-!
Formal model of the SecVideo device-bound session authority.

This file gives a shallow embedding, in Lean, of the security core of the
SecVideo backend: the credential-store entities (`User`, `Device`, `Session`),
the session-authority operations of `AuthService`, the real-time hub
(`SessionHub`), the stream-access check and key derivation of
`StreamController`, and the security-event classifier.  Database tables are
modelled as lists of rows, `DateTime.UtcNow` becomes an explicit `now : Nat`
parameter (seconds), `Guid`s become `Nat` identifiers, and freshly generated
tokens/codes become explicit parameters.  Nullable C# values are `Option`s,
and the C# lifted comparison `x? < y` (false when `x?` is null) is modelled
explicitly.  Each definition carries a reference to the C# source it embeds.
-/

namespace SecVideo

/-- Row of the `Sessions` table (`SecVideo.Domain.Entities.Session`). -/
structure Session where
  id : Nat
  userId : Nat
  deviceId : Nat
  token : String
  refreshToken : String
  isActive : Bool
  lastHeartbeat : Nat
  createdAt : Nat
  expiresAt : Nat
  ipAddress : Option String
  terminationReason : Option String
  terminatedAt : Option Nat
deriving DecidableEq, Repr

/-- Row of the `Devices` table (`SecVideo.Domain.Entities.Device`). -/
structure Device where
  id : Nat
  userId : Nat
  fingerprintHash : String
  userAgent : Option String
  platform : Option String
  screenResolution : Option String
  timezone : Option String
  isVerified : Bool
  verificationCode : Option String
  verificationCodeExpiry : Option Nat
  verifiedAt : Option Nat
  createdAt : Nat
  lastSeenAt : Nat
deriving DecidableEq, Repr

/-- Row of the `Users` table (`SecVideo.Domain.Entities.User`); the
zero-or-one owned device (`User.Device` navigation property) is inlined. -/
structure User where
  id : Nat
  email : String
  passwordHash : String
  name : String
  role : String
  isActive : Bool
  device : Option Device
deriving DecidableEq, Repr

/-- Row of the `Videos` table, restricted to the fields the stream-access
check reads (`SecVideo.Domain.Entities.Video`). -/
structure Video where
  id : Nat
  courseId : Nat
  expiresAt : Nat
deriving DecidableEq, Repr

/-- Row of the `CourseEnrollments` table, restricted to the fields the
stream-access check reads. -/
structure CourseEnrollment where
  courseId : Nat
  userId : Nat
deriving DecidableEq, Repr

/-- Row of the `Courses` table, restricted to the fields the stream-access
check reads. -/
structure Course where
  id : Nat
  instructorId : Nat
deriving DecidableEq, Repr

/-- The relational store (`AppDbContext`), as lists of rows. -/
structure Db where
  users : List User
  sessions : List Session
  videos : List Video
  enrollments : List CourseEnrollment
  courses : List Course
deriving DecidableEq, Repr

/-- Severity of a security event (`SecuritySeverity` in `SecurityEvent.cs`). -/
inductive SecuritySeverity where
  | info
  | warning
  | critical
deriving DecidableEq, Repr

/-- Lower-casing of a string, character by character (model of C#
`string.ToLower`; the same function as `String.toLower`, written over the
character list). -/
def stringToLower (s : String) : String :=
  ⟨s.data.map Char.toLower⟩

/-- Model of `SessionHub.DetermineSeverity` (SessionHub.cs:203-215): a switch
on `eventType.ToLower()` with a default `Info` arm.  The C# `switch` tests the
string patterns in order; the order is kept here even though the patterns are
mutually exclusive. -/
def determineSeverity (eventType : String) : SecuritySeverity :=
  let s := stringToLower eventType
  if s = "devtools_opened" then .warning
  else if s = "devtools_console_detected" then .warning
  else if s = "screenshot_attempt" then .warning
  else if s = "screen_capture_attempted" then .critical
  else if s = "debugger_detected" then .critical
  else if s = "print_screen_attempt" then .warning
  else .info

/-- The hub's in-memory connection registry
(`SessionHub._userConnections : Dictionary<string,string>`), modelled as a
map from userId strings to connection ids. -/
def Registry : Type := String → Option String

/-- Model of `SessionHub.OnDisconnectedAsync` (SessionHub.cs:48-63): when the
claims carry a userId, the registry entry for it is removed only if it still
maps to the disconnecting connection's id (`TryGetValue` + `connId ==
Context.ConnectionId` guard); otherwise the registry is left as it is. -/
def onDisconnected (reg : Registry) (userId : Option String) (connectionId : String) : Registry :=
  match userId with
  | none => reg
  | some uid =>
    if reg uid = some connectionId then
      fun k => if k = uid then none else reg k
    else reg

/-- Push messages the hub sends back to the calling client. -/
inductive HubPush where
  | ack (serverTime : Nat)
  | killed (reason : String)
deriving DecidableEq, Repr

/-- Model of `SessionHub.Heartbeat` (SessionHub.cs:65-83): look the session up
by id; if it exists and `IsActive`, refresh `LastHeartbeat` and push
`heartbeat:ack`; otherwise push `session:killed`.  The session's `ExpiresAt`
is never consulted. -/
def heartbeatHub (sessions : List Session) (sessionId : Option Nat) (now : Nat) :
    List Session × Option HubPush :=
  match sessionId with
  | none => (sessions, none)
  | some sid =>
    match sessions.find? (fun s => s.id == sid) with
    | some s =>
      if s.isActive then
        (sessions.map (fun t => if t.id == sid then { t with lastHeartbeat := now } else t),
         some (.ack now))
      else (sessions, some (.killed "Session expired or invalidated"))
    | none => (sessions, some (.killed "Session expired or invalidated"))

/-! ## Device Trust Manager (`AuthService`) -/

/-- Verification codes expire 15 minutes after issuance
(`DateTime.UtcNow.AddMinutes(15)`), with time measured in seconds. -/
def verificationWindow : Nat := 15 * 60

/-- Model of the first-login branch of `AuthService.LoginAsync`
(AuthService.cs:39-61): when the user has no device, a new unverified device
row is created carrying the supplied fingerprint and a fresh verification
code with a 15-minute expiry. -/
def createDeviceOnFirstLogin (deviceId uid : Nat) (deviceHash code : String) (now : Nat) :
    Device :=
  { id := deviceId
    userId := uid
    fingerprintHash := deviceHash
    userAgent := none
    platform := none
    screenResolution := none
    timezone := none
    isVerified := false
    verificationCode := some code
    verificationCodeExpiry := some (now + verificationWindow)
    verifiedAt := none
    createdAt := now
    lastSeenAt := now }

/-- Model of the fingerprint-mismatch branch of `AuthService.LoginAsync`
(AuthService.cs:63-80): the stored hash is overwritten, `IsVerified` is
cleared, and a fresh code/expiry is armed. -/
def rearmDeviceOnMismatch (d : Device) (deviceHash code : String) (now : Nat) : Device :=
  { d with
    fingerprintHash := deviceHash
    isVerified := false
    verificationCode := some code
    verificationCodeExpiry := some (now + verificationWindow)
    verifiedAt := none }

/-- Model of `AuthService.ResendVerificationCodeAsync` (AuthService.cs:246-263)
restricted to its effect on the device row: a fresh code and expiry are
stored.  Note that `IsVerified` is not touched. -/
def resendVerificationCode (d : Device) (code : String) (now : Nat) : Device :=
  { d with
    verificationCode := some code
    verificationCodeExpiry := some (now + verificationWindow) }

/-- Device metadata supplied with a verification request
(`DeviceInfoDto` in AuthDtos.cs). -/
structure DeviceInfoDto where
  userAgent : Option String
  platform : Option String
  screenResolution : Option String
  timezone : Option String
deriving DecidableEq, Repr

/-- Body of a `POST /auth/verify-device` request
(`DeviceVerificationRequest` in AuthDtos.cs). -/
structure DeviceVerificationRequest where
  code : String
  deviceHash : String
  deviceInfo : DeviceInfoDto
deriving DecidableEq, Repr

/-- Failures `AuthService.VerifyDeviceAsync` signals
(as `UnauthorizedAccessException`s with distinct messages). -/
inductive VerifyError where
  | invalidCode
  | codeExpired
deriving DecidableEq, Repr

/-- The C# lifted comparison `expiry < now` on a nullable `DateTime?`:
false when the stored expiry is null. -/
def expiryPast (expiry : Option Nat) (now : Nat) : Bool :=
  match expiry with
  | some e => e < now
  | none => false

/-- Model of the device part of `AuthService.VerifyDeviceAsync`
(AuthService.cs:143-165), after the temp token has been validated and the
user's device row located: reject with `InvalidCode` when the stored code
differs from the supplied one, then with `CodeExpired` when the stored expiry
is in the past; otherwise mark the device verified, clear the code fields,
and overwrite the fingerprint hash and the metadata with the values from the
verification request. -/
def verifyDevice (d : Device) (req : DeviceVerificationRequest) (now : Nat) :
    Except VerifyError Device :=
  if d.verificationCode ≠ some req.code then
    .error .invalidCode
  else if expiryPast d.verificationCodeExpiry now then
    .error .codeExpired
  else
    .ok { d with
          isVerified := true
          verifiedAt := some now
          verificationCode := none
          verificationCodeExpiry := none
          fingerprintHash := req.deviceHash
          userAgent := req.deviceInfo.userAgent
          platform := req.deviceInfo.platform
          screenResolution := req.deviceInfo.screenResolution
          timezone := req.deviceInfo.timezone
          lastSeenAt := now }

/-- The spec's device-code invariant: `verified` is false exactly when a
verification code is stored. -/
def DeviceCodeInvariant (d : Device) : Prop :=
  d.isVerified = false ↔ d.verificationCode ≠ none

instance (d : Device) : Decidable (DeviceCodeInvariant d) := by
  unfold DeviceCodeInvariant; infer_instance

/-! ## Session Authority (`AuthService`, `AdminController`, `SessionHub`) -/

/-- Deactivation of every active session of one user, with a common reason and
timestamp.  This is the `Where(s => s.UserId == user.Id && s.IsActive)` query
followed by the per-row mutation loop, as it appears both in
`AuthService.CreateSessionAndReturnResponse` (AuthService.cs:267-277) and in
`AdminController.ResetUserDevice` (AdminController.cs:289-299). -/
def deactivateUserSessions (uid : Nat) (reason : String) (now : Nat)
    (sessions : List Session) : List Session :=
  sessions.map fun s =>
    if s.userId == uid && s.isActive then
      { s with isActive := false, terminatedAt := some now, terminationReason := some reason }
    else s

/-- The fresh session row `AuthService.CreateSessionAndReturnResponse`
inserts (AuthService.cs:280-291): active, heartbeat stamped, absolute expiry
seven days out. -/
def newSessionRow (uid deviceId newSessionId : Nat) (token refreshToken : String)
    (now : Nat) (ip : Option String) : Session :=
  { id := newSessionId
    userId := uid
    deviceId := deviceId
    token := token
    refreshToken := refreshToken
    isActive := true
    lastHeartbeat := now
    createdAt := now
    expiresAt := now + 7 * 86400
    ipAddress := ip
    terminationReason := none
    terminatedAt := none }

/-- Model of `AuthService.CreateSessionAndReturnResponse`
(AuthService.cs:265-310) restricted to its effect on the `Sessions` table:
first every active session of the user is deactivated with reason
"New login from same device", then the single new active row is inserted with
a 7-day absolute expiry. -/
def createSessionRows (uid deviceId newSessionId : Nat) (token refreshToken : String)
    (now : Nat) (ip : Option String) (sessions : List Session) : List Session :=
  deactivateUserSessions uid "New login from same device" now sessions ++
    [newSessionRow uid deviceId newSessionId token refreshToken now ip]

/-- Model of `AuthService.LogoutAsync` (AuthService.cs:204-216): the session
matching both the session id and the user id, if any, is deactivated with
reason "User logout". -/
def logoutSession (uid sessionId now : Nat) (sessions : List Session) : List Session :=
  sessions.map fun s =>
    if s.id == sessionId && s.userId == uid then
      { s with isActive := false, terminatedAt := some now,
               terminationReason := some "User logout" }
    else s

/-- Model of `AuthService.TerminateSessionAsync` (AuthService.cs:218-228): the
session with the given primary key, if any, is deactivated with the supplied
reason; `TerminatedAt` and `TerminationReason` are overwritten
unconditionally, whether or not the row was still active. -/
def terminateSession (sessionId : Nat) (reason : String) (now : Nat)
    (sessions : List Session) : List Session :=
  sessions.map fun s =>
    if s.id == sessionId then
      { s with isActive := false, terminatedAt := some now, terminationReason := some reason }
    else s

/-- Model of `SessionHub.KillSession` (SessionHub.cs:168-189) restricted to
its effect on the `Sessions` table: a no-op unless the caller's role claim is
"Admin", otherwise the same row mutation as `TerminateSessionAsync`. -/
def killSessionHub (role : Option String) (targetSessionId : Nat) (reason : String)
    (now : Nat) (sessions : List Session) : List Session :=
  if role ≠ some "Admin" then sessions
  else terminateSession targetSessionId reason now sessions

/-- Model of `AdminController.TerminateSession` (AdminController.cs:170-182)
restricted to its effect on the `Sessions` table: 404 (no change) when no row
carries the id, otherwise the usual deactivation with the request's reason,
defaulting to "Terminated by admin". -/
def adminTerminateSession (sessionId : Nat) (reason : Option String) (now : Nat)
    (sessions : List Session) : List Session :=
  if sessions.any (fun s => s.id == sessionId) then
    terminateSession sessionId (reason.getD "Terminated by admin") now sessions
  else sessions

/-- Model of `AdminController.ResetUserDevice` (AdminController.cs:280-303)
restricted to its effect on the `Sessions` table: every active session of the
user is deactivated with reason "Device reset by admin" (the device row
removal is not visible in the `Sessions` table). -/
def resetUserDeviceSessions (uid now : Nat) (sessions : List Session) : List Session :=
  deactivateUserSessions uid "Device reset by admin" now sessions

/-- One complete session-authority operation, as enumerated by the spec:
session creation (the shared tail of login and device verification), logout,
terminate, admin kill over the hub, admin terminate over REST, and admin
device reset. -/
inductive AuthorityOp where
  | create (uid deviceId newSessionId : Nat) (token refreshToken : String)
      (now : Nat) (ip : Option String)
  | logout (uid sessionId now : Nat)
  | terminate (sessionId : Nat) (reason : String) (now : Nat)
  | adminKill (role : Option String) (sessionId : Nat) (reason : String) (now : Nat)
  | adminTerminate (sessionId : Nat) (reason : Option String) (now : Nat)
  | resetDevice (uid now : Nat)

/-- Effect of a session-authority operation on the `Sessions` table. -/
def applyOp (op : AuthorityOp) (sessions : List Session) : List Session :=
  match op with
  | .create uid deviceId newSessionId token refreshToken now ip =>
    createSessionRows uid deviceId newSessionId token refreshToken now ip sessions
  | .logout uid sessionId now => logoutSession uid sessionId now sessions
  | .terminate sessionId reason now => terminateSession sessionId reason now sessions
  | .adminKill role sessionId reason now => killSessionHub role sessionId reason now sessions
  | .adminTerminate sessionId reason now => adminTerminateSession sessionId reason now sessions
  | .resetDevice uid now => resetUserDeviceSessions uid now sessions

/-- Number of active session rows of one user. -/
def countActive (uid : Nat) (sessions : List Session) : Nat :=
  (sessions.filter (fun s => s.userId == uid && s.isActive)).length

/-- The single-active-session invariant: at most one active session row per
user. -/
def SingleActive (sessions : List Session) : Prop :=
  ∀ uid, countActive uid sessions ≤ 1

/-! ## SHA-256 (FIPS 180-4), over `Nat` bytes and 32-bit words

Model of the `System.Security.Cryptography.SHA256` digest the key deriver
calls.  Bytes are `Nat`s below 256 and words are `Nat`s below `2^32`, with
wraparound written as explicit reduction modulo `2^32`. -/

/-- Reduction of a `Nat` to a 32-bit word. -/
def w32 (n : Nat) : Nat := n % 4294967296

/-- 32-bit modular addition. -/
def add32 (a b : Nat) : Nat := w32 (a + b)

/-- 32-bit right rotation (for `x < 2^32` and `0 < n < 32`). -/
def rotr32 (x n : Nat) : Nat := w32 ((x >>> n) ||| (x <<< (32 - n)))

/-- 32-bit complement. -/
def not32 (x : Nat) : Nat := x ^^^ 4294967295

/-- SHA-256 choice function. -/
def ch32 (x y z : Nat) : Nat := (x &&& y) ^^^ (not32 x &&& z)

/-- SHA-256 majority function. -/
def maj32 (x y z : Nat) : Nat := (x &&& y) ^^^ (x &&& z) ^^^ (y &&& z)

/-- SHA-256 big sigma 0. -/
def bigSig0 (x : Nat) : Nat := rotr32 x 2 ^^^ rotr32 x 13 ^^^ rotr32 x 22

/-- SHA-256 big sigma 1. -/
def bigSig1 (x : Nat) : Nat := rotr32 x 6 ^^^ rotr32 x 11 ^^^ rotr32 x 25

/-- SHA-256 small sigma 0. -/
def smallSig0 (x : Nat) : Nat := rotr32 x 7 ^^^ rotr32 x 18 ^^^ (x >>> 3)

/-- SHA-256 small sigma 1. -/
def smallSig1 (x : Nat) : Nat := rotr32 x 17 ^^^ rotr32 x 19 ^^^ (x >>> 10)

/-- The 64 SHA-256 round constants, written in decimal. -/
def sha256K : List Nat :=
  [1116352408, 1899447441, 3049323471, 3921009573, 961987163,
   1508970993, 2453635748, 2870763221, 3624381080, 310598401,
   607225278, 1426881987, 1925078388, 2162078206, 2614888103,
   3248222580, 3835390401, 4022224774, 264347078, 604807628,
   770255983, 1249150122, 1555081692, 1996064986, 2554220882,
   2821834349, 2952996808, 3210313671, 3336571891, 3584528711,
   113926993, 338241895, 666307205, 773529912, 1294757372,
   1396182291, 1695183700, 1986661051, 2177026350, 2456956037,
   2730485921, 2820302411, 3259730800, 3345764771, 3516065817,
   3600352804, 4094571909, 275423344, 430227734, 506948616,
   659060556, 883997877, 958139571, 1322822218, 1537002063,
   1747873779, 1955562222, 2024104815, 2227730452, 2361852424,
   2428436474, 2756734187, 3204031479, 3329325298]

/-- The eight working words of the SHA-256 state. -/
structure Hash8 where
  a : Nat
  b : Nat
  c : Nat
  d : Nat
  e : Nat
  f : Nat
  g : Nat
  h : Nat
deriving DecidableEq, Repr

/-- The SHA-256 initial hash value, written in decimal. -/
def sha256H0 : Hash8 :=
  ⟨1779033703, 3144134277, 1013904242, 2773480762,
   1359893119, 2600822924, 528734635, 1541459225⟩

/-- Big-endian 8-byte encoding of a (64-bit) length. -/
def beBytes8 (n : Nat) : List Nat :=
  [(n >>> 56) % 256, (n >>> 48) % 256, (n >>> 40) % 256, (n >>> 32) % 256,
   (n >>> 24) % 256, (n >>> 16) % 256, (n >>> 8) % 256, n % 256]

/-- Big-endian 4-byte encoding of a 32-bit word. -/
def wordBytes (w : Nat) : List Nat :=
  [(w >>> 24) % 256, (w >>> 16) % 256, (w >>> 8) % 256, w % 256]

/-- SHA-256 padding: a `0x80` byte, zeros up to 56 mod 64, and the bit length
as an 8-byte big-endian integer. -/
def padMessage (msg : List Nat) : List Nat :=
  let len := msg.length
  msg ++ [0x80] ++ List.replicate ((64 - (len + 9) % 64) % 64) 0 ++ beBytes8 (8 * len)

/-- Big-endian packing of bytes into 32-bit words, four at a time. -/
def bytesToWords : List Nat → List Nat
  | b0 :: b1 :: b2 :: b3 :: rest =>
    ((b0 <<< 24) ||| (b1 <<< 16) ||| (b2 <<< 8) ||| b3) :: bytesToWords rest
  | _ => []

/-- Extension of the 16 chunk words to the 64-entry message schedule. -/
def extendWords (ws : List Nat) : List Nat :=
  (List.range 48).foldl
    (fun acc _ =>
      let n := acc.length
      acc ++ [add32 (add32 (smallSig1 (acc.getD (n - 2) 0)) (acc.getD (n - 7) 0))
                    (add32 (smallSig0 (acc.getD (n - 15) 0)) (acc.getD (n - 16) 0))])
    ws

/-- One SHA-256 compression round, fed a round constant and a schedule word. -/
def compressRound (st : Hash8) (kw : Nat × Nat) : Hash8 :=
  let t1 := add32 st.h (add32 (bigSig1 st.e) (add32 (ch32 st.e st.f st.g) (add32 kw.1 kw.2)))
  let t2 := add32 (bigSig0 st.a) (maj32 st.a st.b st.c)
  ⟨add32 t1 t2, st.a, st.b, st.c, add32 st.d t1, st.e, st.f, st.g⟩

/-- Processing of one 64-byte chunk: run the 64 rounds and add the result to
the incoming hash value. -/
def processChunk (hv : Hash8) (chunk : List Nat) : Hash8 :=
  let ws := extendWords (bytesToWords chunk)
  let st := (sha256K.zip ws).foldl compressRound hv
  ⟨add32 hv.a st.a, add32 hv.b st.b, add32 hv.c st.c, add32 hv.d st.d,
   add32 hv.e st.e, add32 hv.f st.f, add32 hv.g st.g, add32 hv.h st.h⟩

/-- Split of a padded message into its 64-byte chunks. -/
def splitChunks (l : List Nat) : List (List Nat) :=
  (List.range (l.length / 64)).map fun i => ((l.drop (64 * i)).take 64)

/-- SHA-256 of a byte list, as the 32 digest bytes. -/
def sha256 (msg : List Nat) : List Nat :=
  let hv := (splitChunks (padMessage msg)).foldl processChunk sha256H0
  wordBytes hv.a ++ wordBytes hv.b ++ wordBytes hv.c ++ wordBytes hv.d ++
    wordBytes hv.e ++ wordBytes hv.f ++ wordBytes hv.g ++ wordBytes hv.h

/-- Standard UTF-8 encoding of one character (model of `Encoding.UTF8`). -/
def utf8EncodeChar (c : Char) : List Nat :=
  let n := c.toNat
  if n < 0x80 then [n]
  else if n < 0x800 then
    [0xC0 ||| (n >>> 6), 0x80 ||| (n &&& 0x3F)]
  else if n < 0x10000 then
    [0xE0 ||| (n >>> 12), 0x80 ||| ((n >>> 6) &&& 0x3F), 0x80 ||| (n &&& 0x3F)]
  else
    [0xF0 ||| (n >>> 18), 0x80 ||| ((n >>> 12) &&& 0x3F),
     0x80 ||| ((n >>> 6) &&& 0x3F), 0x80 ||| (n &&& 0x3F)]

/-- UTF-8 encoding of a string, as a byte list. -/
def utf8Bytes (s : String) : List Nat :=
  (s.data.map utf8EncodeChar).flatten

/-! ## Session validation (`AuthService.ValidateSessionAsync`,
`AuthController.ValidateSession`) -/

/-- Projection of a user row to the DTO the API returns
(`AuthService.MapToUserDto`). -/
structure UserDto where
  id : Nat
  email : String
  name : String
  role : String
  isActive : Bool
deriving DecidableEq, Repr

/-- Model of `AuthService.MapToUserDto` (AuthService.cs:318-326). -/
def mapToUserDto (u : User) : UserDto :=
  ⟨u.id, u.email, u.name, u.role, u.isActive⟩

/-- Result record of `ValidateSessionAsync`
(`SessionValidationResponse(Valid, User)`). -/
structure SessionValidationResponse where
  valid : Bool
  user : Option UserDto
deriving DecidableEq, Repr

/-- The device condition of `ValidateSessionAsync` (AuthService.cs:182):
`user.Device?.FingerprintHash != deviceHash || !user.Device.IsVerified`
with a non-null `deviceHash`, so a missing device fails the first disjunct
and the second is only reached with a device present. -/
def deviceCheckFails (u : User) (deviceHash : String) : Bool :=
  match u.device with
  | none => true
  | some d => d.fingerprintHash != deviceHash || !d.isVerified

/-- Model of `AuthService.ValidateSessionAsync` (AuthService.cs:170-202):
invalid when the user is missing or inactive, when the device is missing,
unverified or fingerprint-mismatched, or when no active session row matches
the (session id, user id) pair or the matching one is past its expiry.  On
success the session's `LastHeartbeat` and the device's `LastSeenAt` are
refreshed; on every failure path the store is returned untouched. -/
def validateSessionAsync (db : Db) (uid sid : Nat) (deviceHash : String) (now : Nat) :
    SessionValidationResponse × Db :=
  match db.users.find? (fun u => u.id == uid) with
  | none => (⟨false, none⟩, db)
  | some u =>
    if !u.isActive then (⟨false, none⟩, db)
    else if deviceCheckFails u deviceHash then (⟨false, none⟩, db)
    else
      match db.sessions.find? (fun s => s.id == sid && s.userId == uid && s.isActive) with
      | none => (⟨false, none⟩, db)
      | some s =>
        if s.expiresAt < now then (⟨false, none⟩, db)
        else
          (⟨true, some (mapToUserDto u)⟩,
           { db with
             sessions := db.sessions.map fun t =>
               if t.id == s.id then { t with lastHeartbeat := now } else t
             users := db.users.map fun v =>
               if v.id == uid then
                 { v with device := v.device.map fun d => { d with lastSeenAt := now } }
               else v })

/-- HTTP result of `GET /auth/session`. -/
inductive AuthSessionResult where
  | ok (resp : SessionValidationResponse)
  | unauthorized (message : String) (code : Option String)
deriving DecidableEq, Repr

/-- Model of `AuthController.ValidateSession` (AuthController.cs:112-141): the
`X-Device-Hash` header defaulted to the empty string, the token's claims
unwrapped, and every invalid outcome of `ValidateSessionAsync` mapped to
`401 {message: "Session invalid", code: "SESSION_EXPIRED"}`. -/
def validateSessionEndpoint (db : Db) (userId sessionId : Option Nat)
    (deviceHashHeader : Option String) (now : Nat) : AuthSessionResult × Db :=
  match userId, sessionId with
  | some uid, some sid =>
    let hash := deviceHashHeader.getD ""
    let r := validateSessionAsync db uid sid hash now
    if r.1.valid then (.ok r.1, r.2)
    else (.unauthorized "Session invalid" (some "SESSION_EXPIRED"), r.2)
  | _, _ => (.unauthorized "Invalid token" none, db)

/-! ## Stream access and key derivation (`StreamController`) -/

/-- Outcome of `StreamController.ValidateStreamAccess`: a granted check, a
refusal with the C# error message, or an unhandled `NullReferenceException`
(reachable only when the `X-Device-Hash` header is absent and the user row or
its device is missing, so that `user?.Device?.FingerprintHash != deviceHash`
is false and `user.Device.IsVerified` dereferences null). -/
inductive StreamCheck where
  | ok
  | err (msg : String)
  | crash
deriving DecidableEq, Repr

/-- Model of `StreamController.ValidateStreamAccess` (StreamController.cs:158-219),
in the order of the source: claims present; a session row found by
`s.Id == sessionId && s.IsActive` (no user-id condition) and not past expiry;
`user?.Device?.FingerprintHash` equal to the nullable header and the device
verified; the video present and not past expiry; and the caller enrolled in
the video's course, or an Admin, or the course's instructor.  On success the
session's `LastHeartbeat` and device's `LastSeenAt` are refreshed.  The
user's `IsActive` flag is never consulted. -/
def validateStreamAccess (db : Db) (userId sessionId : Option Nat)
    (deviceHash : Option String) (role : Option String) (videoId now : Nat) :
    StreamCheck × Db :=
  match userId, sessionId with
  | some uid, some sid =>
    match db.sessions.find? (fun s => s.id == sid && s.isActive) with
    | none => (.err "Session expired", db)
    | some s =>
      if s.expiresAt < now then (.err "Session expired", db)
      else
        let user := db.users.find? (fun u => u.id == uid)
        if (user.bind (fun u => u.device)).map (fun d => d.fingerprintHash) ≠ deviceHash then
          (.err "Device verification required", db)
        else
          match user with
          | none => (.crash, db)
          | some u =>
            match u.device with
            | none => (.crash, db)
            | some d =>
              if !d.isVerified then (.err "Device verification required", db)
              else
                match db.videos.find? (fun v => v.id == videoId) with
                | none => (.err "Video not found", db)
                | some video =>
                  if video.expiresAt < now then (.err "Video has expired", db)
                  else
                    let isEnrolled := db.enrollments.any fun e =>
                      e.courseId == video.courseId && e.userId == uid
                    let course := db.courses.find? (fun c => c.id == video.courseId)
                    if !isEnrolled ∧ role ≠ some "Admin" ∧
                        (course.map (fun c => c.instructorId)) ≠ some uid then
                      (.err "Not enrolled in this course", db)
                    else
                      (.ok,
                       { db with
                         sessions := db.sessions.map fun t =>
                           if t.id == s.id then { t with lastHeartbeat := now } else t
                         users := db.users.map fun v =>
                           if v.id == uid then
                             { v with device := v.device.map fun e =>
                                 { e with lastSeenAt := now } }
                           else v })
  | _, _ => (.err "Invalid token", db)

/-- The key material string
`$"{videoId}-{userId}-{sessionId}-{_configuration["Jwt:SecretKey"]}"`
of `StreamController.GetEncryptionKey` (StreamController.cs:82). -/
def keyMaterial (videoId uid sid : Nat) (secret : String) : String :=
  toString videoId ++ "-" ++ toString uid ++ "-" ++ toString sid ++ "-" ++ secret

/-- Model of the key computation of `StreamController.GetEncryptionKey`
(StreamController.cs:82-86): the SHA-256 digest of the UTF-8 bytes of the key
material, truncated to its first 16 bytes (`Array.Copy(hash, key, 16)`). -/
def deriveKey (videoId uid sid : Nat) (secret : String) : List Nat :=
  (sha256 (utf8Bytes (keyMaterial videoId uid sid secret))).take 16

/-- Model of `StreamController.GetEncryptionKey` (StreamController.cs:68-91):
run `ValidateStreamAccess`; on failure answer 401 and no key, on success
answer the derived key bytes. -/
def getEncryptionKey (db : Db) (userId sessionId : Option Nat)
    (deviceHash role : Option String) (videoId now : Nat) (secret : String) :
    Option (List Nat) × Db :=
  match userId, sessionId with
  | some uid, some sid =>
    match validateStreamAccess db (some uid) (some sid) deviceHash role videoId now with
    | (.ok, db2) => (some (deriveKey videoId uid sid secret), db2)
    | (_, db2) => (none, db2)
  | _, _ => (none, db)

/-! ## Spec-side characterization used for the stream-access claim

The sequential `ValidateStreamAccess` above is the source translation; the
predicate below is a second definition following the words of the (amended)
claim, to be proved equivalent to the source function granting access. -/

/-- Access as the amended claim words it: an active, unexpired session row
with the caller's session id (matched by id alone, not by user id); the
caller's user row present with a verified device whose fingerprint equals the
supplied header; and an unexpired video the caller may watch (enrolled, or
Admin role claim, or instructor of the video's course).  The user's `IsActive`
flag is deliberately absent. -/
def streamAccessGranted (db : Db) (uid sid : Nat) (deviceHash role : Option String)
    (videoId now : Nat) : Prop :=
  (∃ s, db.sessions.find? (fun t => t.id == sid && t.isActive) = some s ∧
     ¬ s.expiresAt < now) ∧
  (∃ u d, db.users.find? (fun v => v.id == uid) = some u ∧ u.device = some d ∧
     some d.fingerprintHash = deviceHash ∧ d.isVerified = true) ∧
  (∃ v, db.videos.find? (fun w => w.id == videoId) = some v ∧ ¬ v.expiresAt < now ∧
     (db.enrollments.any (fun e => e.courseId == v.courseId && e.userId == uid) = true ∨
      role = some "Admin" ∨
      (db.courses.find? (fun c => c.id == v.courseId)).map (fun c => c.instructorId) =
        some uid))

/-! ## Concrete fixtures used by counterexamples and witnesses -/

/-- A verified device of user 1 with fingerprint "h". -/
def verifiedDeviceEx : Device :=
  { id := 1, userId := 1, fingerprintHash := "h", userAgent := none, platform := none,
    screenResolution := none, timezone := none, isVerified := true,
    verificationCode := none, verificationCodeExpiry := none, verifiedAt := some 0,
    createdAt := 0, lastSeenAt := 0 }

/-- An unverified device of user 1, armed with code "654321". -/
def unverifiedDeviceEx : Device :=
  { id := 1, userId := 1, fingerprintHash := "h", userAgent := none, platform := none,
    screenResolution := none, timezone := none, isVerified := false,
    verificationCode := some "654321", verificationCodeExpiry := some 900,
    verifiedAt := none, createdAt := 0, lastSeenAt := 0 }

/-- An active user 1 owning the verified device. -/
def activeUserEx : User :=
  { id := 1, email := "a@b.c", passwordHash := "p", name := "A", role := "Student",
    isActive := true, device := some verifiedDeviceEx }

/-- A disabled (inactive) user 1 owning the verified device. -/
def inactiveUserEx : User :=
  { id := 1, email := "a@b.c", passwordHash := "p", name := "A", role := "Student",
    isActive := false, device := some verifiedDeviceEx }

/-- An active session 2 of user 1, expiring at time 1000. -/
def activeSessionEx : Session :=
  { id := 2, userId := 1, deviceId := 1, token := "t", refreshToken := "r",
    isActive := true, lastHeartbeat := 0, createdAt := 0, expiresAt := 1000,
    ipAddress := none, terminationReason := none, terminatedAt := none }

/-- An already-terminated session 2 of user 1. -/
def inactiveSessionEx : Session :=
  { id := 2, userId := 1, deviceId := 1, token := "t", refreshToken := "r",
    isActive := false, lastHeartbeat := 0, createdAt := 0, expiresAt := 1000,
    ipAddress := none, terminationReason := some "User logout", terminatedAt := some 5 }

/-- A store in which user 1 is active, verified on device "h", holds the
active session 2, and is enrolled in course 4 carrying video 3. -/
def dbEx : Db :=
  { users := [activeUserEx], sessions := [activeSessionEx],
    videos := [{ id := 3, courseId := 4, expiresAt := 1000 }],
    enrollments := [{ courseId := 4, userId := 1 }],
    courses := [{ id := 4, instructorId := 9 }] }

/-- The same store with user 1 disabled (`IsActive = false`). -/
def dbInactiveUserEx : Db :=
  { users := [inactiveUserEx], sessions := [activeSessionEx],
    videos := [{ id := 3, courseId := 4, expiresAt := 1000 }],
    enrollments := [{ courseId := 4, userId := 1 }],
    courses := [{ id := 4, instructorId := 9 }] }

/-- The same store with session 2 already terminated. -/
def dbInactiveSessionEx : Db :=
  { users := [activeUserEx], sessions := [inactiveSessionEx],
    videos := [{ id := 3, courseId := 4, expiresAt := 1000 }],
    enrollments := [{ courseId := 4, userId := 1 }],
    courses := [{ id := 4, instructorId := 9 }] }

/-! # Theorems -/

/-- C7: the security-event classifier is a pure, case-insensitive total
function on event-type strings: every string whose lower-casing is
`screen_capture_attempted` or `debugger_detected` maps to Critical; every one
lower-casing to `devtools_opened`, `devtools_console_detected`,
`screenshot_attempt` or `print_screen_attempt` maps to Warning; every other
string maps to Info. -/
theorem severity_classification (s : String) :
    (stringToLower s = "screen_capture_attempted" ∨ stringToLower s = "debugger_detected" →
      determineSeverity s = .critical) ∧
    (stringToLower s = "devtools_opened" ∨ stringToLower s = "devtools_console_detected" ∨
     stringToLower s = "screenshot_attempt" ∨ stringToLower s = "print_screen_attempt" →
      determineSeverity s = .warning) ∧
    (stringToLower s ∉ ["screen_capture_attempted", "debugger_detected", "devtools_opened",
        "devtools_console_detected", "screenshot_attempt", "print_screen_attempt"] →
      determineSeverity s = .info) := by
  refine ⟨fun h => ?_, fun h => ?_, fun h => ?_⟩
  · rcases h with h | h <;> simp [determineSeverity, h]
  · rcases h with h | h | h | h <;> simp [determineSeverity, h]
  · simp only [List.mem_cons, List.not_mem_nil, or_false, not_or] at h
    obtain ⟨h1, h2, h3, h4, h5, h6⟩ := h
    simp [determineSeverity, h1, h2, h3, h4, h5, h6]

/-- Witness for C7 at concrete mixed-case inputs. -/
theorem severity_classification_witness :
    (stringToLower "Screen_Capture_Attempted" = "screen_capture_attempted" ∨
      stringToLower "Screen_Capture_Attempted" = "debugger_detected") ∧
    determineSeverity "Screen_Capture_Attempted" = .critical :=
  ⟨Or.inl (by decide),
   (severity_classification "Screen_Capture_Attempted").1 (Or.inl (by decide))⟩

/-- Length of a SHA-256 digest, from the structure of the final
serialization: eight 32-bit words of four bytes each. -/
theorem sha256_length (msg : List Nat) : (sha256 msg).length = 32 := by
  simp [sha256, wordBytes]

/-- C8: key derivation is deterministic and pure: equal inputs give equal
output, the output is exactly 16 bytes, and it is, definitionally, the
SHA-256 digest of the UTF-8 key material built from exactly the four inputs,
truncated to 16 bytes. -/
theorem derive_key_deterministic_16_bytes (videoId uid sid : Nat) (secret : String) :
    deriveKey videoId uid sid secret = deriveKey videoId uid sid secret ∧
    (deriveKey videoId uid sid secret).length = 16 ∧
    deriveKey videoId uid sid secret =
      (sha256 (utf8Bytes (keyMaterial videoId uid sid secret))).take 16 := by
  refine ⟨rfl, ?_, rfl⟩
  simp [deriveKey, sha256_length]

/-- C9: a disconnect removes the registry entry of the disconnecting user
only when it still maps to the disconnecting connection id, leaves every
other user's entry alone, and is a complete no-op on a stale disconnect
(entry already overwritten by a newer connection) or when the claims carry no
user id. -/
theorem disconnect_removes_only_own_entry (reg : Registry) (uid cid : String) :
    (reg uid = some cid →
      onDisconnected reg (some uid) cid uid = none ∧
      ∀ k, k ≠ uid → onDisconnected reg (some uid) cid k = reg k) ∧
    (reg uid ≠ some cid → onDisconnected reg (some uid) cid = reg) ∧
    onDisconnected reg none cid = reg := by
  refine ⟨fun h => ⟨?_, fun k hk => ?_⟩, fun h => ?_, rfl⟩
  · simp [onDisconnected, h]
  · simp [onDisconnected, h, hk]
  · simp [onDisconnected, h]

/-- Witness for C9: a live entry is removed; a stale one is kept. -/
theorem disconnect_removes_only_own_entry_witness :
    ((fun k => if k = "u" then some "c" else none) : Registry) "u" = some "c" ∧
    onDisconnected (fun k => if k = "u" then some "c" else none) (some "u") "c" "u" = none :=
  ⟨by simp, ((disconnect_removes_only_own_entry
      (fun k => if k = "u" then some "c" else none) "u" "c").1 (by simp)).1⟩

/-- C10: the hub's heartbeat handler never evaluates expiry: a session that
is found and has `isActive = true` — even one whose `expiresAt` is already in
the past — gets its `lastHeartbeat` refreshed and `heartbeat:ack` pushed,
never `session:killed`; `session:killed` is pushed exactly for a missing or
inactive session. -/
theorem heartbeat_ignores_expiry (sessions : List Session) (sid now : Nat) :
    (∀ s, sessions.find? (fun t => t.id == sid) = some s → s.isActive = true →
      s.expiresAt < now →
      (heartbeatHub sessions (some sid) now).2 = some (.ack now) ∧
      (heartbeatHub sessions (some sid) now).1.find? (fun t => t.id == sid) =
        some { s with lastHeartbeat := now }) ∧
    (∀ s, sessions.find? (fun t => t.id == sid) = some s → s.isActive = false →
      heartbeatHub sessions (some sid) now =
        (sessions, some (.killed "Session expired or invalidated"))) ∧
    (sessions.find? (fun t => t.id == sid) = none →
      heartbeatHub sessions (some sid) now =
        (sessions, some (.killed "Session expired or invalidated"))) := by
  refine ⟨fun s hs ha _ => ?_, fun s hs ha => ?_, fun hs => ?_⟩
  · have hid : s.id = sid := by simpa using List.find?_some hs
    refine ⟨by simp [heartbeatHub, hs, ha], ?_⟩
    simp only [heartbeatHub, hs, ha, if_true, List.find?_map]
    have hcomp : ((fun t => t.id == sid) ∘ fun t =>
          if t.id == sid then { t with lastHeartbeat := now } else t) =
          (fun t : Session => t.id == sid) := by
      funext t
      by_cases h : t.id = sid <;> simp [h]
    rw [hcomp, hs]
    simp [hid, ha]
  · simp [heartbeatHub, hs, ha]
  · simp [heartbeatHub, hs]

/-- Witness for C10: an active session already past its expiry still receives
`heartbeat:ack` and a refreshed heartbeat timestamp. -/
theorem heartbeat_ignores_expiry_witness :
    [activeSessionEx].find? (fun t => t.id == 2) = some activeSessionEx ∧
    activeSessionEx.isActive = true ∧ activeSessionEx.expiresAt < 2000 ∧
    (heartbeatHub [activeSessionEx] (some 2) 2000).2 = some (.ack 2000) :=
  ⟨by decide, by decide, by decide,
   ((heartbeat_ignores_expiry [activeSessionEx] 2 2000).1 activeSessionEx
     (by decide) (by decide) (by decide)).1⟩

/-- C5 counterexample: `terminate` is not idempotent and not a no-op on an
already-inactive session: re-terminating session 2 at a later time changes
the stored `terminatedAt` (and a second call after a first one differs from
that first call alone). -/
theorem terminate_not_noop_counterexample :
    terminateSession 2 "User logout" 9 [inactiveSessionEx] ≠ [inactiveSessionEx] ∧
    terminateSession 2 "Killed by admin" 9
        (terminateSession 2 "Killed by admin" 3 [activeSessionEx]) ≠
      terminateSession 2 "Killed by admin" 3 [activeSessionEx] := by
  constructor <;> decide

/-- C5 as amended: `terminate` raises no error and always leaves the matching
row inactive, but each call overwrites `terminatedAt` and
`terminationReason`, so the later call's values win: terminating twice equals
a single call with the second call's reason and timestamp (hence calling
twice with one fixed reason and timestamp equals calling once), while the
observable `terminatedAt` of an already-inactive session does change when the
timestamps differ. -/
theorem terminate_second_call_wins (sessions : List Session) (sid : Nat)
    (r1 r2 : String) (t1 t2 : Nat) :
    terminateSession sid r2 t2 (terminateSession sid r1 t1 sessions) =
      terminateSession sid r2 t2 sessions ∧
    terminateSession sid r1 t1 (terminateSession sid r1 t1 sessions) =
      terminateSession sid r1 t1 sessions ∧
    ∀ s ∈ terminateSession sid r1 t1 sessions, s.id = sid → s.isActive = false := by
  have habs : ∀ (ra rb : String) (ta tb : Nat),
      terminateSession sid rb tb (terminateSession sid ra ta sessions) =
        terminateSession sid rb tb sessions := by
    intro ra rb ta tb
    simp only [terminateSession, List.map_map]
    refine List.map_congr_left fun s _ => ?_
    by_cases h : s.id = sid <;> simp [h]
  refine ⟨habs r1 r2 t1 t2, habs r1 r1 t1 t1, fun s hs hid => ?_⟩
  simp only [terminateSession, List.mem_map] at hs
  obtain ⟨a, _, rfl⟩ := hs
  by_cases h : a.id = sid
  · simp [h]
  · simp only [beq_iff_eq, if_neg h] at hid ⊢
    exact absurd hid h

/-- C4 counterexample: `resendCode` on an already-verified device breaks the
claimed invariant: starting from a verified device with no stored code (where
the invariant holds), resending stores a code while `verified` stays true, so
flag and code are both set. -/
theorem resend_breaks_code_invariant :
    DeviceCodeInvariant verifiedDeviceEx ∧
    ¬ DeviceCodeInvariant (resendVerificationCode verifiedDeviceEx "123456" 10) := by
  constructor <;> decide

/-- C4 as amended: the invariant `verified = false ↔ verificationCode ≠ null`
holds unconditionally after device creation at first login, after a
fingerprint-mismatch re-arm, and after a successful verification, and is
preserved by `resendCode` when the device is still unverified; `resendCode`
on a verified device violates it by storing a code without clearing
`verified`. -/
theorem device_code_invariant_ops (d : Device) (deviceId uid : Nat)
    (hash code : String) (now : Nat) (req : DeviceVerificationRequest) :
    DeviceCodeInvariant (createDeviceOnFirstLogin deviceId uid hash code now) ∧
    DeviceCodeInvariant (rearmDeviceOnMismatch d hash code now) ∧
    (∀ d2, verifyDevice d req now = .ok d2 → DeviceCodeInvariant d2) ∧
    (d.isVerified = false → DeviceCodeInvariant (resendVerificationCode d code now)) := by
  refine ⟨?_, ?_, fun d2 h => ?_, fun h => ?_⟩
  · simp [DeviceCodeInvariant, createDeviceOnFirstLogin]
  · simp [DeviceCodeInvariant, rearmDeviceOnMismatch]
  · unfold verifyDevice at h
    split at h
    · exact absurd h (by simp)
    · split at h
      · exact absurd h (by simp)
      · obtain rfl : d2 = _ := (Except.ok.injEq _ _).mp h.symm
        simp [DeviceCodeInvariant]
  · simp [DeviceCodeInvariant, resendVerificationCode, h]

/-- Witness for C4's amended statement: resending on a still-unverified
device keeps the invariant. -/
theorem device_code_invariant_ops_witness :
    unverifiedDeviceEx.isVerified = false ∧
    DeviceCodeInvariant (resendVerificationCode unverifiedDeviceEx "111111" 5) :=
  ⟨by decide,
   (device_code_invariant_ops unverifiedDeviceEx 0 0 "h" "111111" 5
     ⟨"111111", "h", ⟨none, none, none, none⟩⟩).2.2.2 (by decide)⟩

/-- C6: device verification fails with `InvalidCode` exactly when the
supplied code differs from the stored one, fails with `CodeExpired` exactly
when the code matches but the stored expiry is a time in the past, and on
success marks the device verified (stamping `verifiedAt = now`), clears the
code and its expiry, and overwrites the fingerprint hash and the metadata
(user agent, platform, screen resolution, timezone) with the values from the
verification request, whatever values the device carried before (in
particular, not the ones supplied at login). -/
theorem verify_device_spec (d : Device) (req : DeviceVerificationRequest) (now : Nat) :
    (verifyDevice d req now = .error .invalidCode ↔ d.verificationCode ≠ some req.code) ∧
    (verifyDevice d req now = .error .codeExpired ↔
      d.verificationCode = some req.code ∧
        ∃ e, d.verificationCodeExpiry = some e ∧ e < now) ∧
    (d.verificationCode = some req.code →
      expiryPast d.verificationCodeExpiry now = false →
      verifyDevice d req now = .ok
        { d with
          isVerified := true
          verifiedAt := some now
          verificationCode := none
          verificationCodeExpiry := none
          fingerprintHash := req.deviceHash
          userAgent := req.deviceInfo.userAgent
          platform := req.deviceInfo.platform
          screenResolution := req.deviceInfo.screenResolution
          timezone := req.deviceInfo.timezone
          lastSeenAt := now }) := by
  have hpast : expiryPast d.verificationCodeExpiry now = true ↔
      ∃ e, d.verificationCodeExpiry = some e ∧ e < now := by
    cases h : d.verificationCodeExpiry <;> simp [expiryPast, h]
  refine ⟨?_, ?_, fun hc hp => ?_⟩
  · by_cases hc : d.verificationCode = some req.code
    · simp only [verifyDevice, hc]
      by_cases hp : expiryPast d.verificationCodeExpiry now <;> simp [hp]
    · simp [verifyDevice, hc]
  · by_cases hc : d.verificationCode = some req.code
    · simp only [verifyDevice, hc]
      by_cases hp : expiryPast d.verificationCodeExpiry now = true
      · simp [hp, hpast.mp hp, hc]
      · simp only [Bool.not_eq_true] at hp
        simp [hp, hc, ← hpast]
    · simp [verifyDevice, hc, hpast]
  · simp [verifyDevice, hc, hp]

/-- Witness for C6's success clause at a concrete device and request. -/
theorem verify_device_spec_witness :
    unverifiedDeviceEx.verificationCode = some "654321" ∧
    expiryPast unverifiedDeviceEx.verificationCodeExpiry 100 = false ∧
    verifyDevice unverifiedDeviceEx ⟨"654321", "h2", ⟨some "ua", some "pf", some "sr", some "tz"⟩⟩ 100 =
      .ok { unverifiedDeviceEx with
        isVerified := true
        verifiedAt := some 100
        verificationCode := none
        verificationCodeExpiry := none
        fingerprintHash := "h2"
        userAgent := some "ua"
        platform := some "pf"
        screenResolution := some "sr"
        timezone := some "tz"
        lastSeenAt := 100 } :=
  ⟨by decide, by decide,
   (verify_device_spec unverifiedDeviceEx
     ⟨"654321", "h2", ⟨some "ua", some "pf", some "sr", some "tz"⟩⟩ 100).2.2
     (by decide) (by decide)⟩

/-- Unfolding of the active-session count over a cons. -/
theorem countActive_cons (u : Nat) (s : Session) (l : List Session) :
    countActive u (s :: l) =
      (if (s.userId == u && s.isActive) = true then 1 else 0) + countActive u l := by
  by_cases h : (s.userId == u && s.isActive) = true
  · simp [countActive, List.filter_cons, h, Nat.add_comm]
  · simp [countActive, List.filter_cons, h]

/-- The active-session count distributes over append. -/
theorem countActive_append (u : Nat) (l1 l2 : List Session) :
    countActive u (l1 ++ l2) = countActive u l1 + countActive u l2 := by
  simp [countActive, List.filter_append]

/-- Deactivating every active session of a user drops that user's active
count to zero. -/
theorem countActive_deactivate_self (uid : Nat) (reason : String) (now : Nat)
    (l : List Session) :
    countActive uid (deactivateUserSessions uid reason now l) = 0 := by
  induction l with
  | nil => rfl
  | cons s l ih =>
    simp only [deactivateUserSessions, List.map_cons] at ih ⊢
    rw [countActive_cons, ih]
    by_cases h : (s.userId == uid && s.isActive) = true
    · simp [h]
    · simp [h]

/-- Deactivating one user's sessions leaves every other user's active count
unchanged. -/
theorem countActive_deactivate_other {u uid : Nat} (hne : u ≠ uid)
    (reason : String) (now : Nat) (l : List Session) :
    countActive u (deactivateUserSessions uid reason now l) = countActive u l := by
  induction l with
  | nil => rfl
  | cons s l ih =>
    simp only [deactivateUserSessions, List.map_cons] at ih ⊢
    rw [countActive_cons, countActive_cons, ih]
    by_cases h : (s.userId == uid && s.isActive) = true
    · rw [Bool.and_eq_true] at h
      have hu : s.userId = uid := by simpa using h.1
      have hne2 : uid ≠ u := fun e => hne e.symm
      simp [h.2, hu, hne2]
    · simp [h]

/-- A row mutation that preserves user ids and never turns a row active
cannot increase any user's active count. -/
theorem countActive_map_le (f : Session → Session)
    (hid : ∀ s, (f s).userId = s.userId)
    (hact : ∀ s, (f s).isActive = true → s.isActive = true)
    (u : Nat) (l : List Session) :
    countActive u (l.map f) ≤ countActive u l := by
  induction l with
  | nil => exact Nat.le_refl 0
  | cons s l ih =>
    rw [List.map_cons, countActive_cons, countActive_cons]
    have hle : (if ((f s).userId == u && (f s).isActive) = true then 1 else 0) ≤
        (if (s.userId == u && s.isActive) = true then 1 else 0) := by
      by_cases h : ((f s).userId == u && (f s).isActive) = true
      · rw [Bool.and_eq_true] at h
        have hsu : (s.userId == u) = true := by rw [← hid s]; exact h.1
        have hsa : s.isActive = true := hact s h.2
        simp [h, hsu, hsa]
      · simp [h]
    exact Nat.add_le_add hle ih

/-- The single-active-session invariant survives a primary-key termination. -/
theorem single_active_terminate (sid : Nat) (reason : String) (now : Nat)
    (sessions : List Session) (h : SingleActive sessions) :
    SingleActive (terminateSession sid reason now sessions) := by
  intro u
  refine le_trans (countActive_map_le _ (fun s => ?_) (fun s => ?_) u sessions) (h u)
  · by_cases hc : s.id = sid <;> simp [hc]
  · by_cases hc : s.id = sid <;> simp [hc]

/-- C1: every complete session-authority operation — session creation (the
shared tail of login and device verification), logout, terminate, the hub's
admin kill, the REST admin terminate, and the admin device reset — executed
sequentially, preserves the invariant that every user has at most one
session row with `isActive = true`; session creation first deactivates every
active session of the user and only then appends the single new active row,
so it even establishes the invariant for that user unconditionally. -/
theorem single_active_preserved (op : AuthorityOp) (sessions : List Session)
    (h : SingleActive sessions) : SingleActive (applyOp op sessions) := by
  have hmap : ∀ (f : Session → Session), (∀ s, (f s).userId = s.userId) →
      (∀ s, (f s).isActive = true → s.isActive = true) →
      SingleActive (sessions.map f) := fun f h1 h2 u =>
    le_trans (countActive_map_le f h1 h2 u sessions) (h u)
  cases op with
  | create uid deviceId nsid token rtok now ip =>
    intro u
    rw [applyOp, createSessionRows, countActive_append]
    by_cases hu : u = uid
    · subst hu
      rw [countActive_deactivate_self]
      simp [countActive_cons, countActive, newSessionRow]
    · rw [countActive_deactivate_other hu]
      have hne2 : uid ≠ u := fun e => hu e.symm
      have hz : countActive u [newSessionRow uid deviceId nsid token rtok now ip] = 0 := by
        simp [countActive_cons, countActive, newSessionRow, hne2]
      rw [hz]
      exact h u
  | logout uid sessionId now =>
    rw [applyOp]
    unfold logoutSession
    refine hmap _ (fun s => ?_) (fun s => ?_)
    · by_cases hc : (s.id == sessionId && s.userId == uid) = true <;> simp [hc]
    · by_cases hc : (s.id == sessionId && s.userId == uid) = true <;> simp [hc]
  | terminate sid reason now =>
    rw [applyOp]
    exact single_active_terminate sid reason now sessions h
  | adminKill role sid reason now =>
    rw [applyOp]
    unfold killSessionHub
    split
    · exact h
    · exact single_active_terminate sid reason now sessions h
  | adminTerminate sid reason now =>
    rw [applyOp]
    unfold adminTerminateSession
    split
    · exact single_active_terminate sid _ now sessions h
    · exact h
  | resetDevice uid now =>
    intro u
    rw [applyOp]
    unfold resetUserDeviceSessions
    by_cases hu : u = uid
    · subst hu
      rw [countActive_deactivate_self]
      exact Nat.zero_le 1
    · rw [countActive_deactivate_other hu]
      exact h u

/-- Witness for C1: a store holding one active session of user 1 satisfies
the invariant, and still does after a new login for user 1 creates session 3.
-/
theorem single_active_preserved_witness :
    SingleActive [activeSessionEx] ∧
    SingleActive (applyOp (.create 1 1 3 "t3" "r3" 50 none) [activeSessionEx]) :=
  have h0 : SingleActive [activeSessionEx] := fun u => by
    simpa [countActive] using
      List.length_filter_le (fun s => s.userId == u && s.isActive) [activeSessionEx]
  ⟨h0, single_active_preserved (.create 1 1 3 "t3" "r3" 50 none) [activeSessionEx] h0⟩

/-- C3 counterexample: a `GET /auth/session` whose `X-Device-Hash` header
("g") differs from the stored fingerprint ("h") is answered 401 with machine
code `SESSION_EXPIRED`, not `DEVICE_MISMATCH` (the store, session row
included, is indeed left untouched). -/
theorem device_mismatch_code_counterexample :
    validateSessionEndpoint dbEx (some 1) (some 2) (some "g") 10 =
      (.unauthorized "Session invalid" (some "SESSION_EXPIRED"), dbEx) ∧
    (some "SESSION_EXPIRED" : Option String) ≠ some "DEVICE_MISMATCH" := by
  constructor <;> decide

/-- C3 as amended: a `GET /auth/session` whose device hash differs from the
requesting user's stored fingerprint is answered 401 with the single generic
machine code `SESSION_EXPIRED` (the endpoint does not distinguish a device
mismatch), and the store — the user's session rows in particular — is left
completely unchanged: the mismatch blocks access but terminates nothing. -/
theorem device_mismatch_session_unchanged (db : Db) (uid sid : Nat)
    (header : Option String) (now : Nat) (u : User) (d : Device)
    (hu : db.users.find? (fun v => v.id == uid) = some u)
    (hd : u.device = some d)
    (hm : d.fingerprintHash ≠ header.getD "") :
    validateSessionEndpoint db (some uid) (some sid) header now =
      (.unauthorized "Session invalid" (some "SESSION_EXPIRED"), db) := by
  have hfail : deviceCheckFails u (header.getD "") = true := by
    simp [deviceCheckFails, hd, hm]
  simp only [validateSessionEndpoint, validateSessionAsync, hu]
  by_cases hia : u.isActive
  · simp [hia, hfail]
  · simp [hia]

/-- Witness for C3's amended statement at the concrete store. -/
theorem device_mismatch_session_unchanged_witness :
    dbEx.users.find? (fun v => v.id == 1) = some activeUserEx ∧
    activeUserEx.device = some verifiedDeviceEx ∧
    verifiedDeviceEx.fingerprintHash ≠ (some "g" : Option String).getD "" ∧
    validateSessionEndpoint dbEx (some 1) (some 2) (some "g") 10 =
      (.unauthorized "Session invalid" (some "SESSION_EXPIRED"), dbEx) :=
  ⟨by decide, by decide, by decide,
   device_mismatch_session_unchanged dbEx 1 2 (some "g") 10 activeUserEx
     verifiedDeviceEx (by decide) (by decide) (by decide)⟩

/-- C2 counterexample: the stream-key endpoint hands out a key to a disabled
user: in a store where user 1 has `IsActive = false` but a verified matching
device, an active unexpired session and an enrollment, `GET /stream/3/key`
returns a key even though `ValidateSessionAsync` — the Session Authority's
validate — reports the caller invalid. -/
theorem stream_key_inactive_user_counterexample :
    (getEncryptionKey dbInactiveUserEx (some 1) (some 2) (some "h") (some "Student")
        3 10 "k").1.isSome = true ∧
    (validateSessionAsync dbInactiveUserEx 1 2 "h" 10).1.valid = false ∧
    inactiveUserEx.isActive = false := by
  refine ⟨rfl, by decide, by decide⟩

/-- The sequential stream-access check grants access exactly under the
conjunction of conditions of `streamAccessGranted`. -/
theorem validateStreamAccess_ok_iff (db : Db) (uid sid : Nat)
    (deviceHash role : Option String) (videoId now : Nat) :
    (validateStreamAccess db (some uid) (some sid) deviceHash role videoId now).1 = .ok ↔
      streamAccessGranted db uid sid deviceHash role videoId now := by
  unfold validateStreamAccess streamAccessGranted
  cases hs : db.sessions.find? (fun t => t.id == sid && t.isActive) with
  | none => simp [hs]
  | some s =>
    by_cases hexp : s.expiresAt < now
    · simp [hs, hexp]
    · cases hu : db.users.find? (fun v => v.id == uid) with
      | none =>
        cases hh : deviceHash with
        | none => simp [hs, hexp, hu, hh]
        | some fp => simp [hs, hexp, hu, hh]
      | some u =>
        cases hd : u.device with
        | none =>
          cases hh : deviceHash with
          | none => simp [hs, hexp, hu, hd, hh]
          | some fp => simp [hs, hexp, hu, hd, hh]
        | some d =>
          by_cases hfp : (some d.fingerprintHash : Option String) = deviceHash
          · by_cases hver : d.isVerified
            · cases hv : db.videos.find? (fun w => w.id == videoId) with
              | none => simp [hs, hexp, hu, hd, hfp, hver, hv]
              | some video =>
                by_cases hvexp : video.expiresAt < now
                · simp [hs, hexp, hu, hd, hfp, hver, hv, hvexp]
                · by_cases hallow :
                      db.enrollments.any (fun e =>
                        e.courseId == video.courseId && e.userId == uid) = true ∨
                      role = some "Admin" ∨
                      (db.courses.find? (fun c => c.id == video.courseId)).map
                        (fun c => c.instructorId) = some uid
                  · simp [hs, hexp, hu, hd, hfp, hver, hv, hvexp]
                    have hC : ¬ ((∀ x ∈ db.enrollments,
                          x.courseId = video.courseId → ¬x.userId = uid) ∧
                        ¬role = some "Admin" ∧
                        ∀ x : Course,
                          db.courses.find? (fun c => c.id == video.courseId) = some x →
                            ¬x.instructorId = uid) := by
                      rcases hallow with h | h | h
                      · obtain ⟨x, hxmem, hpx⟩ := List.any_eq_true.mp h
                        rw [Bool.and_eq_true] at hpx
                        exact fun hCC =>
                          hCC.1 x hxmem (by simpa using hpx.1) (by simpa using hpx.2)
                      · exact fun hCC => hCC.2.1 h
                      · obtain ⟨a, ha, hai⟩ := Option.map_eq_some'.mp h
                        exact fun hCC => hCC.2.2 a ha hai
                    rw [if_neg hC]
                    refine iff_of_true rfl
                      ⟨Nat.not_lt.mp hexp, Nat.not_lt.mp hvexp, ?_⟩
                    rcases hallow with h | h | h
                    · obtain ⟨x, hxmem, hpx⟩ := List.any_eq_true.mp h
                      rw [Bool.and_eq_true] at hpx
                      exact Or.inl ⟨x, hxmem, by simpa using hpx.1, by simpa using hpx.2⟩
                    · exact Or.inr (Or.inl h)
                    · obtain ⟨a, ha, hai⟩ := Option.map_eq_some'.mp h
                      exact Or.inr (Or.inr ⟨a, ha, hai⟩)
                  · simp [hs, hexp, hu, hd, hfp, hver, hv, hvexp]
                    push_neg at hallow
                    have hC : (∀ x ∈ db.enrollments,
                          x.courseId = video.courseId → ¬x.userId = uid) ∧
                        ¬role = some "Admin" ∧
                        ∀ x : Course,
                          db.courses.find? (fun c => c.id == video.courseId) = some x →
                            ¬x.instructorId = uid := by
                      refine ⟨fun x hxmem hcx hux => ?_, hallow.2.1, fun a ha hai => ?_⟩
                      · exact hallow.1 (List.any_eq_true.mpr ⟨x, hxmem, by simp [hcx, hux]⟩)
                      · exact hallow.2.2 (by rw [ha]; simp [hai])
                    rw [if_pos hC]
                    refine iff_of_false (by simp) ?_
                    rintro ⟨-, -, hdisj⟩
                    rcases hdisj with ⟨x, hxmem, hcx, hux⟩ | h | ⟨a, ha, hai⟩
                    · exact hallow.1 (List.any_eq_true.mpr ⟨x, hxmem, by simp [hcx, hux]⟩)
                    · exact hallow.2.1 h
                    · exact hallow.2.2 (by rw [ha]; simp [hai])
            · simp [hs, hexp, hu, hd, hfp, hver]
          · simp [hs, hexp, hu, hd, hfp]

/-- C2 as amended: the stream-key endpoint returns a key exactly when its own
access check holds — an active, unexpired session row with the caller's
session id (matched by id alone), a present, verified, fingerprint-matching
device, and an unexpired existing video the caller may watch (enrolled,
Admin, or instructor) — a check that, unlike the Session Authority's
`validate`, never consults the user's `IsActive` flag; whenever every session
row with the caller's session id is inactive (superseded) or expired, the
endpoint answers 401 with no key and an untouched store; and any key it does
return is the derived key for the caller's (videoId, userId, sessionId). -/
theorem stream_key_characterization (db : Db) (uid sid : Nat)
    (deviceHash role : Option String) (videoId now : Nat) (secret : String) :
    ((getEncryptionKey db (some uid) (some sid) deviceHash role videoId now secret).1 ≠ none ↔
      streamAccessGranted db uid sid deviceHash role videoId now) ∧
    ((∀ s ∈ db.sessions, s.id = sid → s.isActive = false ∨ s.expiresAt < now) →
      getEncryptionKey db (some uid) (some sid) deviceHash role videoId now secret =
        (none, db)) ∧
    (∀ k, (getEncryptionKey db (some uid) (some sid) deviceHash role videoId
        now secret).1 = some k → k = deriveKey videoId uid sid secret) := by
  obtain ⟨c, db2, hv⟩ : ∃ c db2,
      validateStreamAccess db (some uid) (some sid) deviceHash role videoId now =
        (c, db2) := ⟨_, _, rfl⟩
  have hiff := validateStreamAccess_ok_iff db uid sid deviceHash role videoId now
  rw [hv] at hiff
  refine ⟨?_, fun hall => ?_, fun k hk => ?_⟩
  · rw [← hiff]
    cases c <;> simp [getEncryptionKey, hv]
  · have hnone : db.sessions.find? (fun t => t.id == sid && t.isActive) = none ∨
        ∃ s, db.sessions.find? (fun t => t.id == sid && t.isActive) = some s ∧
          s.expiresAt < now := by
      cases hs : db.sessions.find? (fun t => t.id == sid && t.isActive) with
      | none => exact Or.inl rfl
      | some s =>
        refine Or.inr ⟨s, rfl, ?_⟩
        have hmem := List.mem_of_find?_eq_some hs
        have hpred := List.find?_some hs
        rw [Bool.and_eq_true] at hpred
        have hid : s.id = sid := by simpa using hpred.1
        rcases hall s hmem hid with h | h
        · rw [hpred.2] at h; cases h
        · exact h
    have herr : validateStreamAccess db (some uid) (some sid) deviceHash role videoId now =
        (.err "Session expired", db) := by
      rcases hnone with hs | ⟨s, hs, hexp⟩
      · simp [validateStreamAccess, hs]
      · simp [validateStreamAccess, hs, hexp]
    simp [getEncryptionKey, herr]
  · cases c with
    | ok =>
      simp only [getEncryptionKey, hv] at hk
      exact (Option.some_inj.mp hk).symm
    | err m => simp [getEncryptionKey, hv] at hk
    | crash => simp [getEncryptionKey, hv] at hk

/-- Witness for C2's amended statement: in a store whose only session with id
2 is already terminated, the endpoint returns no key and leaves the store
unchanged. -/
theorem stream_key_characterization_witness :
    (∀ s ∈ dbInactiveSessionEx.sessions, s.id = 2 →
      s.isActive = false ∨ s.expiresAt < 10) ∧
    getEncryptionKey dbInactiveSessionEx (some 1) (some 2) (some "h") (some "Student")
        3 10 "k" = (none, dbInactiveSessionEx) :=
  ⟨by decide,
   (stream_key_characterization dbInactiveSessionEx 1 2 (some "h") (some "Student")
     3 10 "k").2.1 (by decide)⟩

end SecVideo
